import Mathlib

/-!
A shallow embedding of the `dalle` Go package (src/dalle.go) — an HTTP client
for an image-generation API with three operations: `Generate`, `Edit` and
`Variation` — together with theorems settling the specification claims.

Modelling conventions:
* A Go pointer `*int` is modelled by `Option (GoPtr Int)`: `none` is `nil`,
  `some p` carries both the machine address `p.addr` and the pointed value
  `p.val`.  The address matters because `fmt.Sprintf` with the `%d` verb on a
  pointer argument formats the pointer's address as an integer (per the `fmt`
  package documentation: "The %b, %d, %o, %x and %X verbs also work with
  pointers, formatting the value exactly as if it were an integer"); it does
  not dereference.  `encoding/json`, by contrast, does dereference pointers
  when marshalling.
* A Go `*string` optional argument whose address is never observed (only ever
  dereferenced or marshalled) is modelled as `Option String`.
* `*os.File` is modelled by `Option GoFile` (a name plus its byte content);
  `io.Copy` into a multipart part copies the full content.
* The `*http.Client` is modelled as a `Transport` function from requests to
  either a transport-level error or an `HttpResponse`.  The response body is
  `Option Json`: `none` stands for a byte stream that is not a single valid
  JSON value (`json.Decoder.Decode` fails with a syntax-level error there),
  `some j` for a body whose first JSON value parses to `j`.
* The multipart writer is a state value: an ordered list of parts, the random
  boundary (passed in as a parameter, since Go draws it randomly at
  `multipart.NewWriter`), and a `closed` flag set by `Close` (which writes the
  trailing boundary).
-/

namespace Dalle

/-- A non-nil Go pointer: machine address plus pointed-to value. -/
structure GoPtr (α : Type) where
  addr : Nat
  val : α
deriving Repr, DecidableEq

/-- Failures of `encoding/json` decoding: the decoder's own error types
(`*json.SyntaxError`, `io.EOF` on an empty stream, `*json.UnmarshalTypeError`),
which are never values produced by `errors.New`. -/
inductive JsonDecodeError where
  | malformed
  | typeMismatch (goType : String)
deriving Repr, DecidableEq

/-- Go `error` values the client can return: `errors.New(msg)` values,
decoding errors from `encoding/json`, and transport errors from
`http.Client.Do`. -/
inductive GoError where
  | errorString (msg : String)
  | jsonError (e : JsonDecodeError)
  | transportFailure (msg : String)
deriving Repr, DecidableEq

/-- One result record (`type Datum struct { URL string }`, src/dalle.go:33-35). -/
structure Datum where
  url : String
deriving Repr, DecidableEq

/-- The response envelope (`type Response struct`, src/dalle.go:28-31).
`data = none` models a nil Go slice (the `data` key absent or JSON null),
`some l` a non-nil slice. -/
structure Response where
  created : Int
  data : Option (List Datum)
deriving Repr, DecidableEq

/-- A JSON value (numbers restricted to integers, which is all the envelope
uses). -/
inductive Json where
  | null
  | bool (b : Bool)
  | num (n : Int)
  | str (s : String)
  | arr (elems : List Json)
  | obj (fields : List (String × Json))

/-- Unmarshalling one object key into a `Datum`, following `encoding/json`
struct decoding: the tagged key `url` takes a JSON string, JSON null leaves
the field untouched, any other value is an `UnmarshalTypeError`; unknown keys
are ignored. -/
def setDatumField (d : Datum) (kv : String × Json) : Except JsonDecodeError Datum :=
  match kv with
  | ("url", Json.str s) => Except.ok { d with url := s }
  | ("url", Json.null) => Except.ok d
  | ("url", _) => Except.error (JsonDecodeError.typeMismatch "string")
  | _ => Except.ok d

/-- Unmarshalling one array element into a `Datum`: an object decodes field by
field from the zero value, null leaves the zero value, anything else is a type
error. -/
def unmarshalDatum (j : Json) : Except JsonDecodeError Datum :=
  match j with
  | Json.obj fields => fields.foldlM setDatumField { url := "" }
  | Json.null => Except.ok { url := "" }
  | _ => Except.error (JsonDecodeError.typeMismatch "dalle.Datum")

/-- Unmarshalling one object key into a `Response`: `created` takes a JSON
number into `int64`, `data` takes a JSON array of `Datum` (allocating a
non-nil slice, empty for `[]`), null leaves a field untouched, unknown keys
are ignored. -/
def setResponseField (r : Response) (kv : String × Json) : Except JsonDecodeError Response :=
  match kv with
  | ("created", Json.num n) => Except.ok { r with created := n }
  | ("created", Json.null) => Except.ok r
  | ("created", _) => Except.error (JsonDecodeError.typeMismatch "int64")
  | ("data", Json.arr elems) => do
      let ds ← elems.mapM unmarshalDatum
      Except.ok { r with data := some ds }
  | ("data", Json.null) => Except.ok r
  | ("data", _) => Except.error (JsonDecodeError.typeMismatch "[]dalle.Datum")
  | _ => Except.ok r

/-- Decoding the whole body into a `Response` (src/dalle.go:155-161 and the
two identical blocks in `Edit` and `Variation`): a stream that is not valid
JSON fails at syntax level; a JSON value that is not an object (and not null)
is an `UnmarshalTypeError`; an object decodes key by key over the zero value. -/
def decodeBody (body : Option Json) : Except JsonDecodeError Response :=
  match body with
  | none => Except.error JsonDecodeError.malformed
  | some (Json.obj fields) => fields.foldlM setResponseField { created := 0, data := none }
  | some Json.null => Except.ok { created := 0, data := none }
  | some _ => Except.error (JsonDecodeError.typeMismatch "dalle.Response")

/-- One part of a multipart form: either a file part created by
`CreateFormFile` and filled by `io.Copy`, or a plain field written by
`WriteField`. -/
inductive FormPart where
  | filePart (fieldname filename : String) (content : List UInt8)
  | fieldPart (fieldname value : String)
deriving Repr, DecidableEq

/-- The state of a `multipart.Writer`: the boundary drawn at `NewWriter`, the
ordered parts written so far, and whether `Close` has written the trailing
boundary. -/
structure MultipartForm where
  boundary : String
  parts : List FormPart
  closed : Bool
deriving Repr, DecidableEq

/-- Appending a part to the form (covers `CreateFormFile` + `io.Copy`, and
`WriteField`). -/
def MultipartForm.append (m : MultipartForm) (p : FormPart) : MultipartForm :=
  { m with parts := m.parts ++ [p] }

/-- Closing the writer writes the trailing boundary (`w.Close()`). -/
def MultipartForm.close (m : MultipartForm) : MultipartForm :=
  { m with closed := true }

/-- Value of `w.FormDataContentType()` for the boundaries `multipart`
generates (they contain no character that needs quoting). -/
def formDataContentType (boundary : String) : String :=
  "multipart/form-data; boundary=" ++ boundary

/-- A non-nil `*os.File`: its `Name()` and the bytes a full read yields. -/
structure GoFile where
  name : String
  content : List UInt8
deriving Repr, DecidableEq

/-- The wire body of an outgoing request. -/
inductive RequestBody where
  | jsonBody (payload : String)
  | multipartBody (form : MultipartForm)
deriving Repr, DecidableEq

/-- An outgoing HTTP request as built by `http.NewRequest` plus the header
writes. -/
structure Request where
  method : String
  url : String
  headers : List (String × String)
  body : RequestBody
deriving Repr, DecidableEq

/-- An HTTP response: status code and body (see the module comment for the
`Option Json` body convention). -/
structure HttpResponse where
  statusCode : Nat
  body : Option Json

/-- The `*http.Client`: either fails at transport level or yields a response. -/
def Transport : Type :=
  Request → Except GoError HttpResponse

/-- Outcome of one operation: the returned slice (`none` = nil slice), the
returned error, and the request that was dispatched over the network
(`none` when `httpClient.Do` was never reached). -/
structure CallResult where
  data : Option (List Datum)
  err : Option GoError
  sent : Option Request
deriving Repr, DecidableEq

/-- The `client` struct (src/dalle.go:56-61), minus the transport, which is
passed to each operation explicitly. -/
structure ClientState where
  baseURL : String
  apiKey : String
  userAgent : String
deriving Repr, DecidableEq

/-- Constant from src/dalle.go:23. -/
def defaultBaseURL : String := "https://api.openai.com/v1/images"

/-- Constant from src/dalle.go:24. -/
def defaultUserAgent : String := "go-dalle"

/-- The `NewClient` constructor (src/dalle.go:63-76). -/
def newClient (apiKey : String) : ClientState :=
  { baseURL := defaultBaseURL, apiKey := apiKey, userAgent := defaultUserAgent }

/-- Lowercase hex digit, as Go's JSON encoder writes in escape sequences. -/
def hexDigit (n : Nat) : Char :=
  if n < 10 then Char.ofNat (48 + n) else Char.ofNat (97 + (n - 10))

/-- Escaping of one character by Go's `encoding/json` string encoder with its
default HTML escaping (quote, backslash, the named control escapes, other
control characters as \u00xx, the HTML characters, and U+2028/U+2029). -/
def goJsonEscapeChar (c : Char) : String :=
  if c = '"' then "\\\""
  else if c = '\\' then "\\\\"
  else if c = '\n' then "\\n"
  else if c = '\r' then "\\r"
  else if c = '\t' then "\\t"
  else if c.toNat < 0x20 then
    "\\u00" ++ String.mk [hexDigit (c.toNat / 16), hexDigit (c.toNat % 16)]
  else if c = '<' then "\\u003c"
  else if c = '>' then "\\u003e"
  else if c = '&' then "\\u0026"
  else if c.toNat = 0x2028 then "\\u2028"
  else if c.toNat = 0x2029 then "\\u2029"
  else String.singleton c

/-- A Go JSON string literal for `s`. -/
def goJsonQuote (s : String) : String :=
  "\"" ++ String.join (s.toList.map goJsonEscapeChar) ++ "\""

/-- The `GenerateRequest` struct (src/dalle.go:42-48).  `N` keeps its pointer
(`json.Marshal` dereferences it); `Size`, `ResponseFormat` and `User` are
`*string` values whose addresses are never observed. -/
structure GenerateRequest where
  prompt : String
  n : Option (GoPtr Int)
  size : Option String
  responseFormat : Option String
  user : Option String
deriving Repr, DecidableEq

/-- Output of `json.Marshal` on a `GenerateRequest`: fields in struct order
(`prompt`, `n`, `size`, `response_format`, `user`), the four `omitempty`
pointer fields dropped when nil, `N` marshalled as the dereferenced integer. -/
def marshalGenerateRequest (r : GenerateRequest) : String :=
  "\x7b\"prompt\":" ++ goJsonQuote r.prompt
    ++ (match r.n with
        | none => ""
        | some p => ",\"n\":" ++ toString p.val)
    ++ (match r.size with
        | none => ""
        | some s => ",\"size\":" ++ goJsonQuote s)
    ++ (match r.responseFormat with
        | none => ""
        | some s => ",\"response_format\":" ++ goJsonQuote s)
    ++ (match r.user with
        | none => ""
        | some s => ",\"user\":" ++ goJsonQuote s)
    ++ "\x7d"

/-- Result of `fmt.Sprintf` with verb `%d` on a (non-nil) pointer argument:
the `fmt` documentation specifies that `%d` applied to a pointer formats the
pointer value — the address — as an integer; it does not dereference. -/
def fmtDOnPointer (p : GoPtr Int) : String :=
  toString p.addr

/-- The computation `if size != nil { sizeStr = pointerizeString(fmt.Sprintf("%dx%d", size, size)) }`
appearing verbatim in all three operations (src/dalle.go:92-96, 203-207,
336-340).  `size` is a `*int`, so `%d` formats its address. -/
def sizeStringOf (size : Option (GoPtr Int)) : Option String :=
  match size with
  | none => none
  | some p => some (fmtDOnPointer p ++ "x" ++ fmtDOnPointer p)

/-- The status-classification switch appearing verbatim in all three
operations (src/dalle.go:130-153, 271-294, 398-421): the message passed to
`errors.New` for a non-200 status code. -/
def statusErrorMsg (code : Nat) : String :=
  match code with
  | 400 => "bad request"
  | 401 => "unauthorized"
  | 403 => "forbidden"
  | 404 => "not found"
  | 429 => "too many requests"
  | 500 => "internal server error"
  | 502 => "bad gateway"
  | 503 => "service unavailable"
  | 504 => "gateway timeout"
  | _ => "unknown error"

/-- The shared tail of all three operations (src/dalle.go:122-163, 263-304,
390-431): call `httpClient.Do`, propagate transport errors, classify a
non-200 status without touching the body, decode the body on 200, and return
`response.Data`. -/
def doAndClassify (transport : Transport) (req : Request) : CallResult :=
  match transport req with
  | Except.error e => { data := none, err := some e, sent := some req }
  | Except.ok resp =>
      if resp.statusCode ≠ 200 then
        { data := none,
          err := some (GoError.errorString (statusErrorMsg resp.statusCode)),
          sent := some req }
      else
        match decodeBody resp.body with
        | Except.error de => { data := none, err := some (GoError.jsonError de), sent := some req }
        | Except.ok response => { data := response.data, err := none, sent := some req }

/-- The `Generate` operation (src/dalle.go:89-164). -/
def generate (c : ClientState) (transport : Transport) (prompt : String)
    (size : Option (GoPtr Int)) (n : Option (GoPtr Int))
    (user : Option String) (responseType : Option String) : CallResult :=
  let url := c.baseURL ++ "/generations"
  let sizeStr := sizeStringOf size
  let body : GenerateRequest :=
    { prompt := prompt, n := n, size := sizeStr, responseFormat := responseType, user := user }
  let jsonStr := marshalGenerateRequest body
  let req : Request :=
    { method := "POST", url := url,
      headers := [("Authorization", "Bearer " ++ c.apiKey),
                  ("User-Agent", c.userAgent),
                  ("Content-Type", "application/json")],
      body := RequestBody.jsonBody jsonStr }
  doAndClassify transport req

/-- The `Edit` operation (src/dalle.go:177-305).  `boundary` is the random
boundary drawn by `multipart.NewWriter`. -/
def edit (c : ClientState) (transport : Transport) (boundary : String)
    (prompt : String) (image mask : Option GoFile)
    (size : Option (GoPtr Int)) (n : Option (GoPtr Int))
    (user : Option String) (responseType : Option String) : CallResult :=
  let url := c.baseURL ++ "/edits"
  let w : MultipartForm := { boundary := boundary, parts := [], closed := false }
  match image with
  | none => { data := none, err := some (GoError.errorString "image is nil"), sent := none }
  | some img =>
    match mask with
    | none => { data := none, err := some (GoError.errorString "mask is nil"), sent := none }
    | some msk =>
      let w := w.append (FormPart.filePart "image" img.name img.content)
      let w := w.append (FormPart.filePart "mask" msk.name msk.content)
      let sizeStr := sizeStringOf size
      let w := w.append (FormPart.fieldPart "prompt" prompt)
      let w := match n with
        | none => w
        | some p => w.append (FormPart.fieldPart "n" (fmtDOnPointer p))
      let w := match sizeStr with
        | none => w
        | some s => w.append (FormPart.fieldPart "size" s)
      let w := match user with
        | none => w
        | some u => w.append (FormPart.fieldPart "user" u)
      let w := match responseType with
        | none => w
        | some rt => w.append (FormPart.fieldPart "response_format" rt)
      let w := w.close
      let req : Request :=
        { method := "POST", url := url,
          headers := [("Authorization", "Bearer " ++ c.apiKey),
                      ("User-Agent", c.userAgent),
                      ("Content-Type", formDataContentType boundary)],
          body := RequestBody.multipartBody w }
      doAndClassify transport req

/-- The `Variation` operation (src/dalle.go:314-432): like `Edit` but with no
mask and no prompt field. -/
def variation (c : ClientState) (transport : Transport) (boundary : String)
    (image : Option GoFile)
    (size : Option (GoPtr Int)) (n : Option (GoPtr Int))
    (user : Option String) (responseType : Option String) : CallResult :=
  let url := c.baseURL ++ "/variations"
  let w : MultipartForm := { boundary := boundary, parts := [], closed := false }
  match image with
  | none => { data := none, err := some (GoError.errorString "image is nil"), sent := none }
  | some img =>
    let w := w.append (FormPart.filePart "image" img.name img.content)
    let sizeStr := sizeStringOf size
    let w := match n with
      | none => w
      | some p => w.append (FormPart.fieldPart "n" (fmtDOnPointer p))
    let w := match sizeStr with
      | none => w
      | some s => w.append (FormPart.fieldPart "size" s)
    let w := match user with
      | none => w
      | some u => w.append (FormPart.fieldPart "user" u)
    let w := match responseType with
      | none => w
      | some rt => w.append (FormPart.fieldPart "response_format" rt)
    let w := w.close
    let req : Request :=
      { method := "POST", url := url,
        headers := [("Authorization", "Bearer " ++ c.apiKey),
                    ("User-Agent", c.userAgent),
                    ("Content-Type", formDataContentType boundary)],
        body := RequestBody.multipartBody w }
    doAndClassify transport req

/-- A stub transport answering every request with the given status and body. -/
def constTransport (code : Nat) (body : Option Json) : Transport :=
  fun _ => Except.ok { statusCode := code, body := body }

/-- The status codes with a dedicated switch case. -/
def namedCodes : List Nat :=
  [400, 401, 403, 404, 429, 500, 502, 503, 504]

/-- The request `Generate` hands to `httpClient.Do`, as a standalone value. -/
def generateRequestOf (c : ClientState) (prompt : String)
    (size n : Option (GoPtr Int)) (user responseType : Option String) : Request :=
  { method := "POST", url := c.baseURL ++ "/generations",
    headers := [("Authorization", "Bearer " ++ c.apiKey),
                ("User-Agent", c.userAgent),
                ("Content-Type", "application/json")],
    body := RequestBody.jsonBody (marshalGenerateRequest
      { prompt := prompt, n := n, size := sizeStringOf size,
        responseFormat := responseType, user := user }) }

/-- The finalized multipart form `Edit` sends, as a standalone value. -/
def editFormOf (boundary prompt : String) (img msk : GoFile)
    (size n : Option (GoPtr Int)) (user responseType : Option String) : MultipartForm :=
  { boundary := boundary,
    parts := [FormPart.filePart "image" img.name img.content,
              FormPart.filePart "mask" msk.name msk.content,
              FormPart.fieldPart "prompt" prompt]
      ++ (match n with
          | none => []
          | some p => [FormPart.fieldPart "n" (fmtDOnPointer p)])
      ++ (match sizeStringOf size with
          | none => []
          | some s => [FormPart.fieldPart "size" s])
      ++ (match user with
          | none => []
          | some u => [FormPart.fieldPart "user" u])
      ++ (match responseType with
          | none => []
          | some rt => [FormPart.fieldPart "response_format" rt]),
    closed := true }

/-- The request `Edit` hands to `httpClient.Do` when both files are non-nil. -/
def editRequestOf (c : ClientState) (boundary prompt : String) (img msk : GoFile)
    (size n : Option (GoPtr Int)) (user responseType : Option String) : Request :=
  { method := "POST", url := c.baseURL ++ "/edits",
    headers := [("Authorization", "Bearer " ++ c.apiKey),
                ("User-Agent", c.userAgent),
                ("Content-Type", formDataContentType boundary)],
    body := RequestBody.multipartBody
      (editFormOf boundary prompt img msk size n user responseType) }

/-- The finalized multipart form `Variation` sends, as a standalone value. -/
def variationFormOf (boundary : String) (img : GoFile)
    (size n : Option (GoPtr Int)) (user responseType : Option String) : MultipartForm :=
  { boundary := boundary,
    parts := [FormPart.filePart "image" img.name img.content]
      ++ (match n with
          | none => []
          | some p => [FormPart.fieldPart "n" (fmtDOnPointer p)])
      ++ (match sizeStringOf size with
          | none => []
          | some s => [FormPart.fieldPart "size" s])
      ++ (match user with
          | none => []
          | some u => [FormPart.fieldPart "user" u])
      ++ (match responseType with
          | none => []
          | some rt => [FormPart.fieldPart "response_format" rt]),
    closed := true }

/-- The request `Variation` hands to `httpClient.Do` when the file is non-nil. -/
def variationRequestOf (c : ClientState) (boundary : String) (img : GoFile)
    (size n : Option (GoPtr Int)) (user responseType : Option String) : Request :=
  { method := "POST", url := c.baseURL ++ "/variations",
    headers := [("Authorization", "Bearer " ++ c.apiKey),
                ("User-Agent", c.userAgent),
                ("Content-Type", formDataContentType boundary)],
    body := RequestBody.multipartBody
      (variationFormOf boundary img size n user responseType) }

/-- A `Generate` call is exactly: build the request, then dispatch-and-classify. -/
theorem generate_eq (c : ClientState) (t : Transport) (prompt : String)
    (size n : Option (GoPtr Int)) (user rt : Option String) :
    generate c t prompt size n user rt
      = doAndClassify t (generateRequestOf c prompt size n user rt) := rfl

/-- An `Edit` call with both files non-nil is exactly: build the multipart
request, then dispatch-and-classify. -/
theorem edit_eq (c : ClientState) (t : Transport) (boundary prompt : String)
    (img msk : GoFile) (size n : Option (GoPtr Int)) (user rt : Option String) :
    edit c t boundary prompt (some img) (some msk) size n user rt
      = doAndClassify t (editRequestOf c boundary prompt img msk size n user rt) := by
  cases n <;> cases size <;> cases user <;> cases rt <;> rfl

/-- A `Variation` call with a non-nil file is exactly: build the multipart
request, then dispatch-and-classify. -/
theorem variation_eq (c : ClientState) (t : Transport) (boundary : String)
    (img : GoFile) (size n : Option (GoPtr Int)) (user rt : Option String) :
    variation c t boundary (some img) size n user rt
      = doAndClassify t (variationRequestOf c boundary img size n user rt) := by
  cases n <;> cases size <;> cases user <;> cases rt <;> rfl

/-- Dispatch-and-classify always records the request it dispatched. -/
theorem doAndClassify_sent (t : Transport) (req : Request) :
    (doAndClassify t req).sent = some req := by
  unfold doAndClassify
  cases t req with
  | error e => rfl
  | ok resp =>
      by_cases h : resp.statusCode = 200
      · simp only [h]
        cases decodeBody resp.body <;> simp
      · simp [h]

/-- Dispatch-and-classify on a stubbed non-200 status: the fixed status error,
no data, independent of the body. -/
theorem doAndClassify_non200 (req : Request) (code : Nat) (b : Option Json)
    (h : code ≠ 200) :
    doAndClassify (constTransport code b) req
      = { data := none, err := some (GoError.errorString (statusErrorMsg code)),
          sent := some req } := by
  unfold doAndClassify constTransport
  simp [h]

/-- Dispatch-and-classify on a stubbed 200 status whose body fails to decode. -/
theorem doAndClassify_200_decodeErr (req : Request) (b : Option Json)
    (de : JsonDecodeError) (h : decodeBody b = Except.error de) :
    doAndClassify (constTransport 200 b) req
      = { data := none, err := some (GoError.jsonError de), sent := some req } := by
  unfold doAndClassify constTransport
  simp [h]

/-- Dispatch-and-classify on a stubbed 200 status whose body decodes. -/
theorem doAndClassify_200_ok (req : Request) (b : Option Json)
    (resp : Response) (h : decodeBody b = Except.ok resp) :
    doAndClassify (constTransport 200 b) req
      = { data := resp.data, err := none, sent := some req } := by
  unfold doAndClassify constTransport
  simp [h]

/-- Dispatch-and-classify never returns data and an error together. -/
theorem doAndClassify_no_partial (t : Transport) (req : Request) :
    (doAndClassify t req).data = none ∨ (doAndClassify t req).err = none := by
  unfold doAndClassify
  cases t req with
  | error e => exact Or.inl rfl
  | ok resp =>
      by_cases h : resp.statusCode = 200
      · simp only [h]
        cases decodeBody resp.body <;> simp
      · simp [h]

/-- C1: the claim says a size value in 256/512/1024 is serialized as the
string "sizexsize" (512 gives "512x512").  The code instead passes the `*int`
pointer itself to `fmt.Sprintf` with verb `%d` (src/dalle.go:95, 206, 339),
which formats the address of the pointer, not the value: with a pointer at
address 824633794560 to the value 512, `Generate` places
"824633794560x824633794560" in the JSON body, and `Edit` and `Variation`
place the same string in the multipart size field — never "512x512". -/
theorem c1_size_field_holds_pointer_address :
    sizeStringOf (some { addr := 824633794560, val := 512 }) = some "824633794560x824633794560"
    ∧ sizeStringOf (some { addr := 824633794560, val := 512 }) ≠ some "512x512"
    ∧ (generate (newClient "k") (constTransport 200 (some Json.null)) "p"
          (some { addr := 824633794560, val := 512 }) none none none).sent
        = some { method := "POST", url := "https://api.openai.com/v1/images/generations",
                 headers := [("Authorization", "Bearer k"), ("User-Agent", "go-dalle"),
                             ("Content-Type", "application/json")],
                 body := RequestBody.jsonBody
                   "\x7b\"prompt\":\"p\",\"size\":\"824633794560x824633794560\"\x7d" }
    ∧ (edit (newClient "k") (constTransport 200 (some Json.null)) "B" "p"
          (some { name := "i.png", content := [137] }) (some { name := "m.png", content := [80] })
          (some { addr := 824633794560, val := 512 }) none none none).sent
        = some { method := "POST", url := "https://api.openai.com/v1/images/edits",
                 headers := [("Authorization", "Bearer k"), ("User-Agent", "go-dalle"),
                             ("Content-Type", "multipart/form-data; boundary=B")],
                 body := RequestBody.multipartBody
                   { boundary := "B",
                     parts := [FormPart.filePart "image" "i.png" [137],
                               FormPart.filePart "mask" "m.png" [80],
                               FormPart.fieldPart "prompt" "p",
                               FormPart.fieldPart "size" "824633794560x824633794560"],
                     closed := true } }
    ∧ (variation (newClient "k") (constTransport 200 (some Json.null)) "B"
          (some { name := "i.png", content := [137] })
          (some { addr := 824633794560, val := 512 }) none none none).sent
        = some { method := "POST", url := "https://api.openai.com/v1/images/variations",
                 headers := [("Authorization", "Bearer k"), ("User-Agent", "go-dalle"),
                             ("Content-Type", "multipart/form-data; boundary=B")],
                 body := RequestBody.multipartBody
                   { boundary := "B",
                     parts := [FormPart.filePart "image" "i.png" [137],
                               FormPart.fieldPart "size" "824633794560x824633794560"],
                     closed := true } } := by
  refine ⟨rfl, ?_, rfl, rfl, rfl⟩
  decide

/-- C2: the claim says a non-nil count pointing to 3 yields a multipart `n`
field with value "3".  The code passes the `*int` pointer itself to
`fmt.Sprintf` with verb `%d` (src/dalle.go:216, 343), which formats the
address: with a pointer at address 824634000000 to the value 3, `Edit` and
`Variation` write an `n` field with value "824634000000", not "3". -/
theorem c2_n_field_holds_pointer_address :
    (edit (newClient "k") (constTransport 200 (some Json.null)) "B" "p"
          (some { name := "i.png", content := [137] }) (some { name := "m.png", content := [80] })
          none (some { addr := 824634000000, val := 3 }) none none).sent
        = some { method := "POST", url := "https://api.openai.com/v1/images/edits",
                 headers := [("Authorization", "Bearer k"), ("User-Agent", "go-dalle"),
                             ("Content-Type", "multipart/form-data; boundary=B")],
                 body := RequestBody.multipartBody
                   { boundary := "B",
                     parts := [FormPart.filePart "image" "i.png" [137],
                               FormPart.filePart "mask" "m.png" [80],
                               FormPart.fieldPart "prompt" "p",
                               FormPart.fieldPart "n" "824634000000"],
                     closed := true } }
    ∧ (variation (newClient "k") (constTransport 200 (some Json.null)) "B"
          (some { name := "i.png", content := [137] })
          none (some { addr := 824634000000, val := 3 }) none none).sent
        = some { method := "POST", url := "https://api.openai.com/v1/images/variations",
                 headers := [("Authorization", "Bearer k"), ("User-Agent", "go-dalle"),
                             ("Content-Type", "multipart/form-data; boundary=B")],
                 body := RequestBody.multipartBody
                   { boundary := "B",
                     parts := [FormPart.filePart "image" "i.png" [137],
                               FormPart.fieldPart "n" "824634000000"],
                     closed := true } }
    ∧ FormPart.fieldPart "n" "824634000000" ≠ FormPart.fieldPart "n" "3" := by
  refine ⟨rfl, rfl, ?_⟩
  decide

/-- C3: `Edit` with a nil image returns the error "image is nil", `Edit` with
a nil mask returns "mask is nil", and `Variation` with a nil image returns
"image is nil"; in each case no data is returned and the transport is never
invoked (`sent = none`). -/
theorem c3_nil_payload_precondition (c : ClientState) (t : Transport)
    (boundary prompt : String) (img : GoFile) (mask : Option GoFile)
    (size n : Option (GoPtr Int)) (user rt : Option String) :
    edit c t boundary prompt none mask size n user rt
      = { data := none, err := some (GoError.errorString "image is nil"), sent := none }
    ∧ edit c t boundary prompt (some img) none size n user rt
      = { data := none, err := some (GoError.errorString "mask is nil"), sent := none }
    ∧ variation c t boundary none size n user rt
      = { data := none, err := some (GoError.errorString "image is nil"), sent := none } :=
  ⟨rfl, rfl, rfl⟩

/-- C4: 200 is the only success code — for any other status all three
operations return the fixed error of the shared switch with no data; the nine
named codes have pairwise-distinct messages, every unlisted code maps to the
catch-all "unknown error", the identity per code is the same across the three
operations (all equal `errorString (statusErrorMsg code)`), and the response
body is never inspected (the outcome is identical for any two bodies). -/
theorem c4_status_classification (c : ClientState) (code : Nat)
    (body body2 : Option Json) (boundary prompt : String) (img msk : GoFile)
    (size n : Option (GoPtr Int)) (user rt : Option String)
    (h : code ≠ 200) :
    (generate c (constTransport code body) prompt size n user rt
        = { data := none, err := some (GoError.errorString (statusErrorMsg code)),
            sent := some (generateRequestOf c prompt size n user rt) })
    ∧ (edit c (constTransport code body) boundary prompt (some img) (some msk) size n user rt
        = { data := none, err := some (GoError.errorString (statusErrorMsg code)),
            sent := some (editRequestOf c boundary prompt img msk size n user rt) })
    ∧ (variation c (constTransport code body) boundary (some img) size n user rt
        = { data := none, err := some (GoError.errorString (statusErrorMsg code)),
            sent := some (variationRequestOf c boundary img size n user rt) })
    ∧ generate c (constTransport code body) prompt size n user rt
        = generate c (constTransport code body2) prompt size n user rt
    ∧ (namedCodes.map statusErrorMsg).Nodup
    ∧ "unknown error" ∉ namedCodes.map statusErrorMsg
    ∧ (code ∉ namedCodes → statusErrorMsg code = "unknown error") := by
  refine ⟨?_, ?_, ?_, ?_, by decide, by decide, ?_⟩
  · rw [generate_eq]
    exact doAndClassify_non200 _ code body h
  · rw [edit_eq]
    exact doAndClassify_non200 _ code body h
  · rw [variation_eq]
    exact doAndClassify_non200 _ code body h
  · rw [generate_eq, generate_eq, doAndClassify_non200 _ code body h,
        doAndClassify_non200 _ code body2 h]
  · intro h2
    simp only [namedCodes, List.mem_cons, List.not_mem_nil, or_false, not_or] at h2
    unfold statusErrorMsg
    split <;> simp_all

/-- C4 witness: the classification theorem instantiated at status 400 with a
stub transport. -/
theorem c4_status_classification_witness :
    (400 : Nat) ≠ 200
    ∧ generate (newClient "k") (constTransport 400 none) "p" none none none none
        = { data := none, err := some (GoError.errorString "bad request"),
            sent := some (generateRequestOf (newClient "k") "p" none none none none) } :=
  ⟨by decide,
   (c4_status_classification (newClient "k") 400 none (some Json.null) "B" "p"
      { name := "i", content := [] } { name := "m", content := [] }
      none none none none (by decide)).1⟩

/-- C5: on a 200 response whose body is not valid JSON or does not match the
envelope shape, each operation returns the decoding error of the json package
and no data, and such an error is distinct from every `errors.New` status
error identity. -/
theorem c5_decode_error_distinct (c : ClientState) (boundary prompt : String)
    (img msk : GoFile) (size n : Option (GoPtr Int)) (user rt : Option String)
    (body : Option Json) (de : JsonDecodeError)
    (h : decodeBody body = Except.error de) :
    (generate c (constTransport 200 body) prompt size n user rt
        = { data := none, err := some (GoError.jsonError de),
            sent := some (generateRequestOf c prompt size n user rt) })
    ∧ (edit c (constTransport 200 body) boundary prompt (some img) (some msk) size n user rt
        = { data := none, err := some (GoError.jsonError de),
            sent := some (editRequestOf c boundary prompt img msk size n user rt) })
    ∧ (variation c (constTransport 200 body) boundary (some img) size n user rt
        = { data := none, err := some (GoError.jsonError de),
            sent := some (variationRequestOf c boundary img size n user rt) })
    ∧ ∀ msg : String, GoError.jsonError de ≠ GoError.errorString msg := by
  refine ⟨?_, ?_, ?_, fun msg hx => GoError.noConfusion hx⟩
  · rw [generate_eq]
    exact doAndClassify_200_decodeErr _ body de h
  · rw [edit_eq]
    exact doAndClassify_200_decodeErr _ body de h
  · rw [variation_eq]
    exact doAndClassify_200_decodeErr _ body de h

/-- C5 witness: the decode-error theorem instantiated at a 200 response whose
body is not valid JSON. -/
theorem c5_decode_error_distinct_witness :
    decodeBody none = Except.error JsonDecodeError.malformed
    ∧ generate (newClient "k") (constTransport 200 none) "p" none none none none
        = { data := none, err := some (GoError.jsonError JsonDecodeError.malformed),
            sent := some (generateRequestOf (newClient "k") "p" none none none none) } :=
  ⟨rfl,
   (c5_decode_error_distinct (newClient "k") "B" "p" { name := "i", content := [] }
      { name := "m", content := [] } none none none none none
      JsonDecodeError.malformed rfl).1⟩

/-- C6: in the `Generate` JSON body the count marshals as a bare JSON integer
(`json.Marshal` dereferences the `*int`), so a count pointing to 3 yields
`"n":3` whatever its address — never the string form — and every nil optional
field (`n`, `size`, `response_format`, `user`) is omitted from the body
entirely via `omitempty`. -/
theorem c6_count_integer_and_omitempty :
    (∀ (prompt : String) (a : Nat) (v : Int),
        marshalGenerateRequest
          { prompt := prompt, n := some { addr := a, val := v },
            size := none, responseFormat := none, user := none }
          = "\x7b\"prompt\":" ++ goJsonQuote prompt ++ (",\"n\":" ++ toString v) ++ "\x7d")
    ∧ (∀ prompt : String,
        marshalGenerateRequest
          { prompt := prompt, n := none, size := none, responseFormat := none, user := none }
          = "\x7b\"prompt\":" ++ goJsonQuote prompt ++ "\x7d")
    ∧ (∀ a : Nat,
        marshalGenerateRequest
          { prompt := "p", n := some { addr := a, val := 3 },
            size := none, responseFormat := none, user := none }
          = "\x7b\"prompt\":\"p\",\"n\":3\x7d")
    ∧ marshalGenerateRequest
        { prompt := "p", n := some { addr := 7, val := 3 },
          size := none, responseFormat := none, user := none }
        ≠ "\x7b\"prompt\":\"p\",\"n\":\"3\"\x7d"
    ∧ marshalGenerateRequest
        { prompt := "p", n := none, size := some "512x512",
          responseFormat := some "url", user := some "u" }
        = "\x7b\"prompt\":\"p\",\"size\":\"512x512\",\"response_format\":\"url\",\"user\":\"u\"\x7d"
    ∧ marshalGenerateRequest
        { prompt := "p", n := some { addr := 7, val := 3 }, size := none,
          responseFormat := some "url", user := some "u" }
        = "\x7b\"prompt\":\"p\",\"n\":3,\"response_format\":\"url\",\"user\":\"u\"\x7d"
    ∧ marshalGenerateRequest
        { prompt := "p", n := some { addr := 7, val := 3 }, size := some "512x512",
          responseFormat := none, user := some "u" }
        = "\x7b\"prompt\":\"p\",\"n\":3,\"size\":\"512x512\",\"user\":\"u\"\x7d"
    ∧ marshalGenerateRequest
        { prompt := "p", n := some { addr := 7, val := 3 }, size := some "512x512",
          responseFormat := some "url", user := none }
        = "\x7b\"prompt\":\"p\",\"n\":3,\"size\":\"512x512\",\"response_format\":\"url\"\x7d" := by
  refine ⟨?_, ?_, fun a => rfl, by decide, rfl, rfl, rfl, rfl⟩
  · intro prompt a v
    simp [marshalGenerateRequest, String.append_empty]
  · intro prompt
    simp [marshalGenerateRequest, String.append_empty]

/-- C7: no partial success — for every transport and every set of inputs,
each operation returns a nil slice or a nil error (never a non-nil slice
together with a non-nil error). -/
theorem c7_no_partial_success (c : ClientState) (t : Transport)
    (boundary prompt : String) (image mask : Option GoFile)
    (size n : Option (GoPtr Int)) (user rt : Option String) :
    ((generate c t prompt size n user rt).data = none
      ∨ (generate c t prompt size n user rt).err = none)
    ∧ ((edit c t boundary prompt image mask size n user rt).data = none
      ∨ (edit c t boundary prompt image mask size n user rt).err = none)
    ∧ ((variation c t boundary image size n user rt).data = none
      ∨ (variation c t boundary image size n user rt).err = none) := by
  refine ⟨?_, ?_, ?_⟩
  · rw [generate_eq]
    exact doAndClassify_no_partial _ _
  · cases image with
    | none => exact Or.inl rfl
    | some img =>
        cases mask with
        | none => exact Or.inl rfl
        | some msk =>
            rw [edit_eq]
            exact doAndClassify_no_partial _ _
  · cases image with
    | none => exact Or.inl rfl
    | some img =>
        rw [variation_eq]
        exact doAndClassify_no_partial _ _

/-- C8: `Generate` applies no local validation to the prompt — for every
prompt, the empty string included, it builds the request and hands it to the
transport (the dispatched request is always recorded). -/
theorem c8_generate_no_local_validation (c : ClientState) (t : Transport)
    (prompt : String) (size n : Option (GoPtr Int)) (user rt : Option String) :
    (generate c t prompt size n user rt).sent
      = some (generateRequestOf c prompt size n user rt)
    ∧ (generate c t "" size n user rt).sent
      = some (generateRequestOf c "" size n user rt) := by
  constructor <;> (rw [generate_eq]; exact doAndClassify_sent _ _)

/-- C9: an `Edit` call with both files non-nil dispatches a POST to
`baseURL/edits` whose multipart body holds the full image and mask payloads,
whose form is closed (the trailing boundary written) before the request is
handed to the transport, and whose Content-Type header is the value produced
by the form encoder for its boundary. -/
theorem c9_edit_multipart_finalized (c : ClientState) (t : Transport)
    (boundary prompt : String) (img msk : GoFile)
    (size n : Option (GoPtr Int)) (user rt : Option String) :
    (edit c t boundary prompt (some img) (some msk) size n user rt).sent
      = some { method := "POST", url := c.baseURL ++ "/edits",
               headers := [("Authorization", "Bearer " ++ c.apiKey),
                           ("User-Agent", c.userAgent),
                           ("Content-Type", formDataContentType boundary)],
               body := RequestBody.multipartBody
                 (editFormOf boundary prompt img msk size n user rt) }
    ∧ (editFormOf boundary prompt img msk size n user rt).closed = true
    ∧ FormPart.filePart "image" img.name img.content
        ∈ (editFormOf boundary prompt img msk size n user rt).parts
    ∧ FormPart.filePart "mask" msk.name msk.content
        ∈ (editFormOf boundary prompt img msk size n user rt).parts
    ∧ FormPart.fieldPart "prompt" prompt
        ∈ (editFormOf boundary prompt img msk size n user rt).parts
    ∧ formDataContentType boundary = "multipart/form-data; boundary=" ++ boundary := by
  refine ⟨?_, rfl, ?_, ?_, ?_, rfl⟩
  · rw [edit_eq]
    exact doAndClassify_sent _ _
  all_goals simp [editFormOf]

/-- C10: a 200 response with a well-formed envelope whose data array is
absent (nil slice) or empty returns that nil or empty sequence together with
a nil error, in all three operations — emptiness is not rejected locally. -/
theorem c10_absent_or_empty_data (c : ClientState) (boundary prompt : String)
    (img msk : GoFile) (size n : Option (GoPtr Int)) (user rt : Option String)
    (ts : Int) :
    (generate c (constTransport 200 (some (Json.obj [("created", Json.num ts)])))
        prompt size n user rt
      = { data := none, err := none,
          sent := some (generateRequestOf c prompt size n user rt) })
    ∧ (generate c (constTransport 200
          (some (Json.obj [("created", Json.num ts), ("data", Json.arr [])])))
        prompt size n user rt
      = { data := some [], err := none,
          sent := some (generateRequestOf c prompt size n user rt) })
    ∧ (edit c (constTransport 200 (some (Json.obj [("created", Json.num ts)])))
        boundary prompt (some img) (some msk) size n user rt
      = { data := none, err := none,
          sent := some (editRequestOf c boundary prompt img msk size n user rt) })
    ∧ (edit c (constTransport 200
          (some (Json.obj [("created", Json.num ts), ("data", Json.arr [])])))
        boundary prompt (some img) (some msk) size n user rt
      = { data := some [], err := none,
          sent := some (editRequestOf c boundary prompt img msk size n user rt) })
    ∧ (variation c (constTransport 200 (some (Json.obj [("created", Json.num ts)])))
        boundary (some img) size n user rt
      = { data := none, err := none,
          sent := some (variationRequestOf c boundary img size n user rt) })
    ∧ (variation c (constTransport 200
          (some (Json.obj [("created", Json.num ts), ("data", Json.arr [])])))
        boundary (some img) size n user rt
      = { data := some [], err := none,
          sent := some (variationRequestOf c boundary img size n user rt) }) := by
  have h1 : decodeBody (some (Json.obj [("created", Json.num ts)]))
      = Except.ok { created := ts, data := none } := rfl
  have h2 : decodeBody (some (Json.obj [("created", Json.num ts), ("data", Json.arr [])]))
      = Except.ok { created := ts, data := some [] } := rfl
  refine ⟨?_, ?_, ?_, ?_, ?_, ?_⟩
  · rw [generate_eq]
    exact doAndClassify_200_ok _ _ _ h1
  · rw [generate_eq]
    exact doAndClassify_200_ok _ _ _ h2
  · rw [edit_eq]
    exact doAndClassify_200_ok _ _ _ h1
  · rw [edit_eq]
    exact doAndClassify_200_ok _ _ _ h2
  · rw [variation_eq]
    exact doAndClassify_200_ok _ _ _ h1
  · rw [variation_eq]
    exact doAndClassify_200_ok _ _ _ h2

end Dalle

